import Mathlib

/-!
Shallow embedding of the CuraThingiBrowser plugin core, translated from:
  src/ThingiBrowser/drivers/thingiverse/ThingiverseApiClient.py  (API client revision)
  src/thingiverse/ThingiverseService.py                          (view-model service)

Pure request/parse logic is embedded as Lean functions; the stateful service
is embedded as explicit state passing (each slot method maps a service state
to a new state plus an ordered list of emitted effects).  Machine strings are
Lean `String`s, Python `None` and JSON null are modelled explicitly.
-/

namespace ThingiBrowser

/-- Python positional str.format: each placeholder pair (an opening brace
directly followed by a closing brace) in the template is replaced by the next
positional argument; all other characters are copied verbatim. -/
def pyFormatAux : List Char → List String → List Char
  | '\x7b' :: '\x7d' :: rest, a :: args => a.data ++ pyFormatAux rest args
  | c :: rest, args => c :: pyFormatAux rest args
  | [], _ => []

/-- Python str.format on a template string with positional arguments. -/
def pyFormat (template : String) (args : List String) : String :=
  ⟨pyFormatAux template.data args⟩

/-- JSON field values as they reach the parsers: null (also Python None for a
missing key), a string, or an integer. -/
inductive JVal where
  | null
  | str (s : String)
  | num (n : Int)
deriving DecidableEq, Repr

/-- Raw JSON object, as the association of field names to values. -/
abbrev RawItem := List (String × JVal)

/-- Python dict.get: the value stored under the key, or None when absent. -/
def RawItem.get (item : RawItem) (key : String) : JVal :=
  match item.find? (fun p => p.1 == key) with
  | some p => p.2
  | none => JVal.null

/-- Python truthiness of a JSON value: None/null is falsy, a string is truthy
iff non-empty, a number is truthy iff non-zero. -/
def JVal.truthy : JVal → Bool
  | .null => false
  | .str s => !(s == "")
  | .num n => !(n == 0)

/-- Python `a or b`: the left operand when truthy, otherwise the right. -/
def pyOr (a b : JVal) : JVal := if a.truthy then a else b

namespace ThingiverseApiClient

/-- ThingiverseApiClient._root_url. -/
def root_url : String := "https://api.thingiverse.com"

/-- ThingiverseApiClient.getThingsFromCollectionQuery. -/
def getThingsFromCollectionQuery (collection_id : String) : String :=
  pyFormat "collections/\x7b\x7d/things" [collection_id]

/-- ThingiverseApiClient.getThingsBySearchQuery. -/
def getThingsBySearchQuery (search_terms : String) : String :=
  pyFormat "search/\x7b\x7d/?sort=relevent" [search_terms]

/-- ThingiverseApiClient.getThingsLikedByUserQuery (user_id is the configured
user name read from the preference store). -/
def getThingsLikedByUserQuery (user_id : String) : String :=
  pyFormat "users/\x7b\x7d/likes" [user_id]

/-- ThingiverseApiClient.getThingsByUserQuery. -/
def getThingsByUserQuery (user_id : String) : String :=
  pyFormat "users/\x7b\x7d/things" [user_id]

/-- ThingiverseApiClient.getThingsMadeByUserQuery. -/
def getThingsMadeByUserQuery (user_id : String) : String :=
  pyFormat "users/\x7b\x7d/copies" [user_id]

/-- ThingiverseApiClient.getPopularThingsQuery. -/
def getPopularThingsQuery : String := "popular"

/-- ThingiverseApiClient.getFeaturedThingsQuery. -/
def getFeaturedThingsQuery : String := "featured"

/-- ThingiverseApiClient.getNewestThingsQuery. -/
def getNewestThingsQuery : String := "newest"

/-- Which reply-parsing function an endpoint registers with `_addCallback`.
`rawJson` stands for the default used when no parser argument is passed
(AbstractApiClient is not under src/; per the spec that default passes the
raw JSON through without normalization). -/
inductive ParserTag where
  | rawJson
  | parseGetThings
  | parseGetThing
  | parseGetThingFiles
  | parseGetCollections
  | parseReplyAsBytes
deriving DecidableEq, Repr

/-- One outbound GET request as the client builds it: the URL and the parsing
function registered for the reply. -/
structure Request where
  url : String
  parserTag : ParserTag
deriving DecidableEq, Repr

/-- ThingiverseApiClient.getThings: URL from root, query and pagination,
reply parsed by _parseGetThings.  perPage stands for Settings.PER_PAGE, a
fixed configuration constant whose value is not under src/. -/
def getThings (query : String) (perPage page : Nat) : Request :=
  { url := pyFormat "\x7b\x7d/\x7b\x7d?per_page=\x7b\x7d&page=\x7b\x7d"
      [root_url, query, toString perPage, toString page],
    parserTag := .parseGetThings }

/-- ThingiverseApiClient.getThing. -/
def getThing (thing_id : Int) : Request :=
  { url := pyFormat "\x7b\x7d/things/\x7b\x7d" [root_url, toString thing_id],
    parserTag := .parseGetThing }

/-- ThingiverseApiClient.getThingFiles: note that the source registers the
callback without a parser argument, so the default applies. -/
def getThingFiles (thing_id : Int) : Request :=
  { url := pyFormat "\x7b\x7d/things/\x7b\x7d/files" [root_url, toString thing_id],
    parserTag := .rawJson }

/-- ThingiverseApiClient.getCollections. -/
def getCollections (user_id : String) : Request :=
  { url := pyFormat "\x7b\x7d/users/\x7b\x7d/collections" [root_url, user_id],
    parserTag := .parseGetCollections }

/-- ThingiverseApiClient.downloadThingFile. -/
def downloadThingFile (file_id : Int) : Request :=
  { url := pyFormat "\x7b\x7d/files/\x7b\x7d/download" [root_url, toString file_id],
    parserTag := .parseReplyAsBytes }

/-- Thing record as _parseGetThing / _parseGetThings construct it. -/
structure Thing where
  id : JVal
  thumbnail : JVal
  name : JVal
  url : JVal
  description : JVal
deriving DecidableEq, Repr

/-- ThingFile record as _parseGetThingFiles constructs it. -/
structure ThingFile where
  id : JVal
  thumbnail : JVal
  name : JVal
  url : JVal
deriving DecidableEq, Repr

/-- Collection record as _parseGetCollections constructs it. -/
structure Collection where
  id : JVal
  thumbnail : JVal
  name : JVal
  url : JVal
  description : JVal
deriving DecidableEq, Repr

/-- ThingiverseApiClient._parseGetThings body (per list element). -/
def parseGetThings (response : List RawItem) : List Thing :=
  response.map (fun item =>
    { id := item.get "id", thumbnail := item.get "thumbnail",
      name := item.get "name", url := item.get "public_url",
      description := item.get "description" })

/-- ThingiverseApiClient._parseGetThing. -/
def parseGetThing (item : RawItem) : Thing :=
  { id := item.get "id", thumbnail := item.get "thumbnail",
    name := item.get "name",
    url := pyOr (item.get "public_url") (item.get "url"),
    description := item.get "description" }

/-- ThingiverseApiClient._parseGetThingFiles (defined in the source but, as
the embedding of getThingFiles records, never registered as a callback). -/
def parseGetThingFiles (response : List RawItem) : List ThingFile :=
  response.map (fun item =>
    { id := item.get "id", thumbnail := item.get "thumbnail",
      name := item.get "name",
      url := pyOr (item.get "public_url") (item.get "url") })

/-- ThingiverseApiClient._parseGetCollections. -/
def parseGetCollections (response : List RawItem) : List Collection :=
  response.map (fun item =>
    { id := item.get "id", thumbnail := item.get "thumbnail",
      name := item.get "name", url := item.get "url",
      description := item.get "description" })

end ThingiverseApiClient

section PyFormatEval

open ThingiverseApiClient

/-- Evaluation of the search query template. -/
lemma pyFormat_search (t : String) :
    getThingsBySearchQuery t = "search/" ++ (t ++ "/?sort=relevent") := rfl

/-- Evaluation of the likes query template. -/
lemma pyFormat_likes (u : String) :
    getThingsLikedByUserQuery u = "users/" ++ (u ++ "/likes") := rfl

/-- Evaluation of the user things query template. -/
lemma pyFormat_userThings (u : String) :
    getThingsByUserQuery u = "users/" ++ (u ++ "/things") := rfl

/-- Evaluation of the copies query template. -/
lemma pyFormat_copies (u : String) :
    getThingsMadeByUserQuery u = "users/" ++ (u ++ "/copies") := rfl

/-- Evaluation of the collection things query template. -/
lemma pyFormat_collectionThings (c : String) :
    getThingsFromCollectionQuery c = "collections/" ++ (c ++ "/things") := rfl

/-- Evaluation of the paginated listing URL template. -/
lemma pyFormat_getThingsUrl (q : String) (pp pg : Nat) :
    (getThings q pp pg).url =
      root_url ++ ("/" ++ (q ++ ("?per_page=" ++
        (toString pp ++ ("&page=" ++ (toString pg ++ "")))))) := rfl

end PyFormatEval

namespace ThingiverseService

/-- Modelled from the spec: Thing records as delivered by the service's own
API client revision (src/thingiverse/ThingiverseApiClient.py is not under
src/); per §3 a Thing is id, thumbnail, name, url, description. -/
structure SThing where
  id : Int
  thumbnail : String
  name : String
  url : String
  description : String
deriving DecidableEq, Repr

/-- Modelled from the spec: ThingFile records as delivered by the service's
own API client revision (not under src/); per §3 id, thumbnail, name, url. -/
structure SFile where
  id : Int
  thumbnail : String
  name : String
  url : String
deriving DecidableEq, Repr

/-- Error object handed to _onRequestFailed: errorAttr is the value of the
error attribute when the object has one (the hasattr check in the source),
strSelf models Python str of the object itself and strDict models Python str
of its attribute dictionary. -/
structure ErrObj where
  errorAttr : Option String
  strSelf : String
  strDict : String
deriving DecidableEq, Repr

/-- Observable side effects of the service, in the order the source emits
them: Qt signal emissions, the settings-window request, outbound API client
calls, the downloading-flag assignments, and the two file-sink interactions
of the download completion handler. -/
inductive Effect where
  | emitMessageChanged
  | emitThingsChanged
  | emitIsFromCollectionChanged
  | emitUserNameChanged
  | emitQueryingStateChanged
  | emitActiveThingChanged
  | emitActiveThingFilesChanged
  | emitDownloadingStateChanged
  | openSettingsWindow
  | apiGet (query : String) (page : Nat)
  | apiGetThing (thing_id : Int)
  | apiGetThingFiles (thing_id : Int)
  | apiDownload (file_id : Int) (file_name : String)
  | setDownloading (b : Bool)
  | writeTempFile (data : List Nat) (file_name : String)
  | readLocalFile (file_name : String)
  | showErrorDialog (text : String) (detail : String)
deriving DecidableEq, Repr

/-- Instance attributes of ThingiverseService.  is_querying is an Option
because __init__ never assigns the underlying attribute: none means the
attribute does not exist yet (it is first assigned inside _executeQuery). -/
structure ServiceState where
  message : Option String
  things : List SThing
  query : String
  query_page : Nat
  is_from_collection : Bool
  thing_details : Option SThing
  thing_files : List SFile
  is_downloading : Bool
  user_name : String
  supported_file_types : List String
  is_querying : Option Bool
  extension_present : Bool
deriving DecidableEq, Repr

/-- ThingiverseService.__init__: every attribute assignment of the
constructor, in particular the absence of one for the querying flag.  The
user name comes from the preference store; Python None and the empty string
are both modelled as the empty string. -/
def initService (extension_present : Bool) (user_name : String) : ServiceState :=
  { message := none, things := [], query := "", query_page := 1,
    is_from_collection := false, thing_details := none, thing_files := [],
    is_downloading := false, user_name := user_name,
    supported_file_types := [], is_querying := none,
    extension_present := extension_present }

/-- pyqtProperty isQuerying: the getter returns the underlying attribute;
reading an attribute that was never assigned raises AttributeError. -/
def isQuerying (s : ServiceState) : Except String Bool :=
  match s.is_querying with
  | some b => Except.ok b
  | none => Except.error "AttributeError"

/-- pyqtProperty activeThing. -/
def activeThing (s : ServiceState) : Option SThing := s.thing_details

/-- pyqtProperty activeThingFiles. -/
def activeThingFiles (s : ServiceState) : List SFile := s.thing_files

/-- pyqtProperty hasActiveThing. -/
def hasActiveThing (s : ServiceState) : Bool := s.thing_details.isSome

/-- ThingiverseService.openSettings: shows the settings window through the
injected extension; a missing extension makes it return without effect. -/
def openSettings (s : ServiceState) : List Effect :=
  if s.extension_present then [Effect.openSettingsWindow] else []

/-- ThingiverseService._checkUserNameConfigured: opens the settings window
and reports false when the user name is not configured. -/
def _checkUserNameConfigured (s : ServiceState) : Bool × List Effect :=
  if s.user_name == "" then (false, openSettings s) else (true, [])

/-- ThingiverseService.hideThingDetails: drops the active thing details and
fires the active-thing notification; the thing-files list is not touched. -/
def hideThingDetails (s : ServiceState) : ServiceState × List Effect :=
  ({ s with thing_details := none }, [Effect.emitActiveThingChanged])

/-- ThingiverseService._clearSearchResults. -/
def _clearSearchResults (s : ServiceState) : ServiceState × List Effect :=
  let s1 := { s with things := [], query_page := 1 }
  let p := hideThingDetails s1
  (p.1, p.2 ++ [Effect.emitThingsChanged])

/-- ThingiverseService._executeQuery: on a truthy new query the query string
is replaced, results cleared and the page reset; the from-collection flag is
updated when it changes; the querying flag is set and the API client's get
is issued with the current query and page. -/
def _executeQuery (s : ServiceState) (new_query : Option String)
    (is_from_collection : Bool) : ServiceState × List Effect :=
  let p1 : ServiceState × List Effect :=
    match new_query with
    | some q =>
      if q == "" then (s, [])
      else
        let p := _clearSearchResults { s with query := q }
        ({ p.1 with query_page := 1 }, p.2)
    | none => (s, [])
  let p2 : ServiceState × List Effect :=
    if p1.1.is_from_collection == is_from_collection then (p1.1, [])
    else ({ p1.1 with is_from_collection := is_from_collection },
          [Effect.emitIsFromCollectionChanged])
  let s3 := { p2.1 with is_querying := some true }
  (s3, p1.2 ++ p2.2 ++
    [Effect.emitQueryingStateChanged, Effect.apiGet s3.query s3.query_page])

/-- ThingiverseService.search. -/
def search (s : ServiceState) (search_term : String) : ServiceState × List Effect :=
  _executeQuery s (some (pyFormat "search/\x7b\x7d" [search_term])) false

/-- ThingiverseService.getLiked. -/
def getLiked (s : ServiceState) : ServiceState × List Effect :=
  let c := _checkUserNameConfigured s
  if c.1 then
    _executeQuery s (some (pyFormat "users/\x7b\x7d/likes" [s.user_name])) false
  else (s, c.2)

/-- ThingiverseService.getCollections. -/
def getCollections (s : ServiceState) : ServiceState × List Effect :=
  let c := _checkUserNameConfigured s
  if c.1 then
    _executeQuery s (some (pyFormat "users/\x7b\x7d/collections" [s.user_name])) false
  else (s, c.2)

/-- ThingiverseService.getMyThings. -/
def getMyThings (s : ServiceState) : ServiceState × List Effect :=
  let c := _checkUserNameConfigured s
  if c.1 then
    _executeQuery s (some (pyFormat "users/\x7b\x7d/things" [s.user_name])) false
  else (s, c.2)

/-- ThingiverseService.getMakes. -/
def getMakes (s : ServiceState) : ServiceState × List Effect :=
  let c := _checkUserNameConfigured s
  if c.1 then
    _executeQuery s (some (pyFormat "users/\x7b\x7d/copies" [s.user_name])) false
  else (s, c.2)

/-- ThingiverseService.getPopular. -/
def getPopular (s : ServiceState) : ServiceState × List Effect :=
  _executeQuery s (some "popular") false

/-- ThingiverseService.getFeatured. -/
def getFeatured (s : ServiceState) : ServiceState × List Effect :=
  _executeQuery s (some "featured") false

/-- ThingiverseService.getNewest. -/
def getNewest (s : ServiceState) : ServiceState × List Effect :=
  _executeQuery s (some "newest") false

/-- ThingiverseService.addPage: increments the page, then re-issues the
existing query (no new query string, defaults for the other parameter). -/
def addPage (s : ServiceState) : ServiceState × List Effect :=
  _executeQuery { s with query_page := s.query_page + 1 } none false

/-- ThingiverseService.showCollectionDetails. -/
def showCollectionDetails (s : ServiceState) (collection_id : Int) :
    ServiceState × List Effect :=
  _executeQuery s
    (some (pyFormat "collections/\x7b\x7d/things" [toString collection_id])) true

/-- ThingiverseService.showThingDetails: fires the two detail requests. -/
def showThingDetails (s : ServiceState) (thing_id : Int) :
    ServiceState × List Effect :=
  (s, [Effect.apiGetThing thing_id, Effect.apiGetThingFiles thing_id])

/-- ThingiverseService.downloadThingFile: flags downloading, fires the
notification, then issues the download request. -/
def downloadThingFile (s : ServiceState) (file_id : Int) (file_name : String) :
    ServiceState × List Effect :=
  ({ s with is_downloading := true },
   [Effect.setDownloading true, Effect.emitDownloadingStateChanged,
    Effect.apiDownload file_id file_name])

/-- ThingiverseService._onThingDetailsFinished. -/
def _onThingDetailsFinished (s : ServiceState) (thing : SThing) :
    ServiceState × List Effect :=
  ({ s with thing_details := some thing }, [Effect.emitActiveThingChanged])

/-- Components of a POSIX path as pathlib parses them: split on the
separator, dropping empty and single-dot components. -/
def pathComponents : List Char → List (List Char)
  | [] => [[]]
  | c :: rest =>
    let r := pathComponents rest
    if c == '/' then [] :: r
    else
      match r with
      | h :: t => (c :: h) :: t
      | [] => [[c]]

/-- pathlib PurePath.name of a path: its last retained component. -/
def pathlibName (p : List Char) : List Char :=
  (((pathComponents p).filter (fun comp => !(comp.isEmpty) && !(comp == ['.']))).getLast?).getD []

/-- Index of the last dot of a name, as Python str.rfind returns it. -/
def lastDotIdx (cs : List Char) : Option Nat :=
  match cs.reverse.findIdx? (fun c => c == '.') with
  | none => none
  | some j => some (cs.length - 1 - j)

/-- pathlib PurePath.suffix: the part of the name from its last dot on, when
that dot is neither the first nor the last character, else empty. -/
def pySuffix (nm : List Char) : List Char :=
  match lastDotIdx nm with
  | none => []
  | some i => if 0 < i && i < nm.length - 1 then nm.drop i else []

/-- Python str.strip with a dot argument: removes leading and trailing
dots. -/
def stripDots (cs : List Char) : List Char :=
  ((cs.dropWhile (fun c => c == '.')).reverse.dropWhile (fun c => c == '.')).reverse

/-- The expression `pathlib.Path(name).suffix.lower().strip(".")` from
_onThingFilesFinished, as a function of the file name. -/
def fileTypeOf (name : String) : String :=
  ⟨stripDots ((pySuffix (pathlibName name.data)).map Char.toLower)⟩

/-- ThingiverseService._onThingFilesFinished: keeps exactly the files whose
extension is among the supported file types. -/
def _onThingFilesFinished (s : ServiceState) (thing_files : List SFile) :
    ServiceState × List Effect :=
  let kept := thing_files.filter
    (fun f => s.supported_file_types.contains (fileTypeOf f.name))
  ({ s with thing_files := kept }, [Effect.emitActiveThingFilesChanged])

/-- ThingiverseService._onDownloadFinished: writes the bytes to a temporary
file, asks the host to open it, and only then clears the downloading flag
and fires its notification. -/
def _onDownloadFinished (s : ServiceState) (file_bytes : List Nat)
    (file_name : String) : ServiceState × List Effect :=
  ({ s with is_downloading := false },
   [Effect.writeTempFile file_bytes file_name, Effect.readLocalFile file_name,
    Effect.setDownloading false, Effect.emitDownloadingStateChanged])

/-- ThingiverseService._onQueryFinished: clears the querying flag and
appends the new page of results. -/
def _onQueryFinished (s : ServiceState) (things : List SThing) :
    ServiceState × List Effect :=
  ({ s with is_querying := some false, things := s.things ++ things },
   [Effect.emitQueryingStateChanged, Effect.emitThingsChanged])

/-- ThingiverseService._onRequestFailed: builds the error message (the error
attribute if the object has one, else the object itself, else Unknown) and
shows one blocking dialog. -/
def _onRequestFailed (error : Option ErrObj) : List Effect :=
  let error_message : String :=
    match error with
    | none => "Unknown"
    | some e =>
      match e.errorAttr with
      | some msg => msg
      | none => e.strSelf
  let text := pyFormat "Thingiverse returned an error: \x7b\x7d." [error_message]
  let detail := match error with | some e => e.strDict | none => ""
  [Effect.showErrorDialog text detail]

/-- State transition induced by the failure callback: _onRequestFailed is a
static method, so it reads and writes no instance attribute and the service
state passes through unchanged. -/
def _onRequestFailedStep (s : ServiceState) (error : Option ErrObj) :
    ServiceState × List Effect :=
  (s, _onRequestFailed error)

end ThingiverseService

section Helpers

/-- Appending strings is associative. -/
lemma str_append_assoc (a b c : String) : a ++ b ++ c = a ++ (b ++ c) :=
  String.ext (List.append_assoc a.data b.data c.data)

/-- Appending the empty string on the right is the identity. -/
lemma str_append_empty (a : String) : a ++ "" = a :=
  String.ext (List.append_nil a.data)

/-- A string with a non-empty left part is non-empty. -/
lemma append_ne_empty_left (a b : String) (h : a.data ≠ []) : a ++ b ≠ "" := by
  intro hc
  have h2 := congrArg String.data hc
  rw [String.data_append] at h2
  exact h (List.append_eq_nil.mp h2).1

/-- The failure dialog text always has its fixed prefix, hence is
non-empty. -/
lemma onRequestFailed_text_ne (msg : String) :
    pyFormat "Thingiverse returned an error: \x7b\x7d." [msg] ≠ "" := by
  have h : pyFormat "Thingiverse returned an error: \x7b\x7d." [msg]
      = "Thingiverse returned an error: " ++ (msg ++ ".") := rfl
  rw [h]
  exact append_ne_empty_left _ _ (by decide)

/-- A query operation clears the accumulated results and resets the page
counter. -/
def ClearsResults (p : ThingiverseService.ServiceState × List ThingiverseService.Effect) : Prop :=
  p.1.things = [] ∧ p.1.query_page = 1

namespace ThingiverseService

/-- _executeQuery without a new query keeps the results, the page counter
and the query string, and raises the querying flag. -/
lemma executeQuery_none (s : ServiceState) (b : Bool) :
    (_executeQuery s none b).1.things = s.things ∧
    (_executeQuery s none b).1.query_page = s.query_page ∧
    (_executeQuery s none b).1.query = s.query ∧
    (_executeQuery s none b).1.is_querying = some true := by
  simp only [_executeQuery]
  split <;> simp

/-- _executeQuery with a truthy new query clears the results, resets the
page counter, installs the query and raises the querying flag. -/
lemma executeQuery_some (s : ServiceState) (q : String) (b : Bool) (h : ¬ q = "") :
    (_executeQuery s (some q) b).1.things = [] ∧
    (_executeQuery s (some q) b).1.query_page = 1 ∧
    (_executeQuery s (some q) b).1.query = q ∧
    (_executeQuery s (some q) b).1.is_querying = some true := by
  simp only [_executeQuery, _clearSearchResults, hideThingDetails, beq_iff_eq,
    if_neg h]
  split <;> simp

/-- The search query string built by the service is never empty. -/
lemma search_query_eval (t : String) :
    pyFormat "search/\x7b\x7d" [t] = "search/" ++ (t ++ "") := rfl

/-- The likes query string built by the service. -/
lemma likes_query_eval (u : String) :
    pyFormat "users/\x7b\x7d/likes" [u] = "users/" ++ (u ++ "/likes") := rfl

/-- The collections query string built by the service. -/
lemma collections_query_eval (u : String) :
    pyFormat "users/\x7b\x7d/collections" [u] = "users/" ++ (u ++ "/collections") := rfl

/-- The things query string built by the service. -/
lemma things_query_eval (u : String) :
    pyFormat "users/\x7b\x7d/things" [u] = "users/" ++ (u ++ "/things") := rfl

/-- The copies query string built by the service. -/
lemma copies_query_eval (u : String) :
    pyFormat "users/\x7b\x7d/copies" [u] = "users/" ++ (u ++ "/copies") := rfl

/-- The collection-details query string built by the service. -/
lemma collection_things_query_eval (c : String) :
    pyFormat "collections/\x7b\x7d/things" [c] = "collections/" ++ (c ++ "/things") := rfl

end ThingiverseService

end Helpers

section Claims

open ThingiverseApiClient ThingiverseService

/-- C1 (counterexample): two query builders diverge from the §4.1 table.
The search builder does not produce the path search/foo for the query foo
(it appends a trailing slash and a sort parameter), and the collection
builder produces collections/99/things for collection 99 rather than the
user-scoped users/USER/collections/99/things path of the table (for any
user: its output has no users/ prefix, shown here against user chris). -/
theorem c1_counterexample :
    getThingsBySearchQuery "foo" ≠ "search/foo" ∧
    getThingsFromCollectionQuery "99" = "collections/99/things" ∧
    getThingsFromCollectionQuery "99" ≠ "users/chris/collections/99/things" := by
  exact ⟨by decide, by decide, by decide⟩

/-- C1 (amended): getThings builds the URL root/query?per_page=PP&page=P;
the likes, things, copies, popular, featured and newest query builders
match the table of §4.1 exactly; the search builder instead produces
search/term/?sort=relevent, carrying an extra trailing slash and sort
parameter in front of the pagination parameters; and the collection
builder produces collections/ID/things, without the users/USER/ prefix the
table shows. -/
theorem c1_amended (q t u c : String) (pp pg : Nat) :
    (getThings q pp pg).url =
      root_url ++ "/" ++ q ++ "?per_page=" ++ toString pp ++ "&page=" ++ toString pg ∧
    getPopularThingsQuery = "popular" ∧
    getFeaturedThingsQuery = "featured" ∧
    getNewestThingsQuery = "newest" ∧
    getThingsLikedByUserQuery u = "users/" ++ u ++ "/likes" ∧
    getThingsByUserQuery u = "users/" ++ u ++ "/things" ∧
    getThingsMadeByUserQuery u = "users/" ++ u ++ "/copies" ∧
    getThingsFromCollectionQuery c = "collections/" ++ c ++ "/things" ∧
    getThingsBySearchQuery t = "search/" ++ t ++ "/?sort=relevent" := by
  refine ⟨?_, rfl, rfl, rfl, ?_, ?_, ?_, ?_, ?_⟩ <;>
    simp only [pyFormat_getThingsUrl, pyFormat_likes, pyFormat_userThings,
      pyFormat_copies, pyFormat_collectionThings, pyFormat_search,
      str_append_empty, str_append_assoc]

/-- C2 (counterexample): after a query enters the querying state, a failed
request leaves the querying flag true — the observable isQuerying does not
go back to false. -/
theorem c2_counterexample :
    isQuerying (_onRequestFailedStep
      ((getPopular (initService true "u")).1) none).1 = Except.ok true := rfl

/-- C2 (amended): the failure callback leaves the entire service state
unchanged (so no error state is stored but the querying flag is also not
reset) and emits exactly one failure dialog whose message is non-empty. -/
theorem c2_amended (s : ServiceState) (error : Option ErrObj) :
    (_onRequestFailedStep s error).1 = s ∧
    ∃ text detail,
      (_onRequestFailedStep s error).2 = [Effect.showErrorDialog text detail] ∧
      text ≠ "" := by
  refine ⟨rfl, ?_⟩
  match error with
  | none =>
    exact ⟨_, _, rfl, onRequestFailed_text_ne _⟩
  | some e =>
    match e with
    | ⟨some msg, strSelf, strDict⟩ => exact ⟨_, _, rfl, onRequestFailed_text_ne _⟩
    | ⟨none, strSelf, strDict⟩ => exact ⟨_, _, rfl, onRequestFailed_text_ne _⟩

/-- C3: addPage keeps the accumulated results (and merely increments the
page counter), while every query-changing operation clears the results and
resets the page counter to 1; for the user-scoped operations this is under
the configured-user-name precondition of C4. -/
theorem c3 (s : ServiceState) (t : String) (cid : Int) (h : ¬ s.user_name = "") :
    (addPage s).1.things = s.things ∧
    (addPage s).1.query_page = s.query_page + 1 ∧
    ClearsResults (search s t) ∧
    ClearsResults (getPopular s) ∧
    ClearsResults (getFeatured s) ∧
    ClearsResults (getNewest s) ∧
    ClearsResults (showCollectionDetails s cid) ∧
    ClearsResults (getLiked s) ∧
    ClearsResults (ThingiverseService.getCollections s) ∧
    ClearsResults (getMyThings s) ∧
    ClearsResults (getMakes s) := by
  have hs : ∀ u : String, ¬ "search/" ++ (u ++ "") = "" :=
    fun u => append_ne_empty_left _ _ (by decide)
  have hu : ∀ p u : String, ¬ "users/" ++ (u ++ p) = "" :=
    fun p u => append_ne_empty_left _ _ (by decide)
  have hc : ∀ u : String, ¬ "collections/" ++ (u ++ "/things") = "" :=
    fun u => append_ne_empty_left _ _ (by decide)
  refine ⟨(executeQuery_none _ _).1, ?_, ?_, ?_, ?_, ?_, ?_, ?_, ?_, ?_, ?_⟩
  · exact (executeQuery_none { s with query_page := s.query_page + 1 } false).2.1
  · have := executeQuery_some s (pyFormat "search/\x7b\x7d" [t]) false
      (by rw [search_query_eval]; exact hs t)
    exact ⟨this.1, this.2.1⟩
  · have := executeQuery_some s "popular" false (by decide)
    exact ⟨this.1, this.2.1⟩
  · have := executeQuery_some s "featured" false (by decide)
    exact ⟨this.1, this.2.1⟩
  · have := executeQuery_some s "newest" false (by decide)
    exact ⟨this.1, this.2.1⟩
  · have := executeQuery_some s (pyFormat "collections/\x7b\x7d/things" [toString cid]) true
      (by rw [collection_things_query_eval]; exact hc _)
    exact ⟨this.1, this.2.1⟩
  · have hq := executeQuery_some s (pyFormat "users/\x7b\x7d/likes" [s.user_name]) false
      (by rw [likes_query_eval]; exact hu _ _)
    simp only [getLiked, _checkUserNameConfigured, beq_iff_eq, if_neg h]
    exact ⟨hq.1, hq.2.1⟩
  · have hq := executeQuery_some s (pyFormat "users/\x7b\x7d/collections" [s.user_name]) false
      (by rw [collections_query_eval]; exact hu _ _)
    simp only [ThingiverseService.getCollections, _checkUserNameConfigured, beq_iff_eq, if_neg h]
    exact ⟨hq.1, hq.2.1⟩
  · have hq := executeQuery_some s (pyFormat "users/\x7b\x7d/things" [s.user_name]) false
      (by rw [things_query_eval]; exact hu _ _)
    simp only [getMyThings, _checkUserNameConfigured, beq_iff_eq, if_neg h]
    exact ⟨hq.1, hq.2.1⟩
  · have hq := executeQuery_some s (pyFormat "users/\x7b\x7d/copies" [s.user_name]) false
      (by rw [copies_query_eval]; exact hu _ _)
    simp only [getMakes, _checkUserNameConfigured, beq_iff_eq, if_neg h]
    exact ⟨hq.1, hq.2.1⟩

/-- C3 (witness): on a service with the user name configured, getLiked
clears the results and resets the page to 1. -/
theorem c3_witness : ClearsResults (getLiked (initService true "u")) :=
  (c3 (initService true "u") "foo" 7 (by decide)).2.2.2.2.2.2.2.1

/-- C4: each user-scoped operation with an empty configured user name
leaves the whole service state unchanged (in particular it does not enter
the querying state) and emits only the settings-window request — no API
call is issued. -/
theorem c4 (s : ServiceState) (h : s.user_name = "") (hx : s.extension_present = true) :
    getLiked s = (s, [Effect.openSettingsWindow]) ∧
    ThingiverseService.getCollections s = (s, [Effect.openSettingsWindow]) ∧
    getMyThings s = (s, [Effect.openSettingsWindow]) ∧
    getMakes s = (s, [Effect.openSettingsWindow]) := by
  refine ⟨?_, ?_, ?_, ?_⟩ <;>
    simp [getLiked, ThingiverseService.getCollections, getMyThings, getMakes,
      _checkUserNameConfigured, openSettings, h, hx]

/-- C4 (witness): on a fresh service with no user name, getLiked only asks
for the settings window. -/
theorem c4_witness :
    getLiked (initService true "") = (initService true "", [Effect.openSettingsWindow]) :=
  (c4 (initService true "") rfl rfl).1

/-- C5 (counterexample): on a payload whose public_url field is present but
empty, the parsed Thing takes the url field, not the present public_url. -/
theorem c5_counterexample :
    (parseGetThing [("public_url", JVal.str ""),
      ("url", JVal.str "https://example.com/thing")]).url
        = JVal.str "https://example.com/thing" ∧
    (parseGetThing [("public_url", JVal.str ""),
      ("url", JVal.str "https://example.com/thing")]).url ≠ JVal.str "" := by
  exact ⟨by decide, by decide⟩

/-- C5 (amended): the Thing produced by getThing takes its url from the
payload's public_url field when that field is truthy (present, non-null and
non-empty), and from the url field otherwise — Python or semantics, so a
present-but-empty or null public_url falls through to url. -/
theorem c5_amended (item : RawItem) :
    ((item.get "public_url").truthy = true →
      (parseGetThing item).url = item.get "public_url") ∧
    ((item.get "public_url").truthy = false →
      (parseGetThing item).url = item.get "url") := by
  constructor <;> intro h <;> simp [parseGetThing, pyOr, h]

/-- C5 (witness): a truthy public_url wins; an absent public_url falls back
to url. -/
theorem c5_witness :
    (parseGetThing [("public_url", JVal.str "P"), ("url", JVal.str "U")]).url
      = JVal.str "P" ∧
    (parseGetThing [("url", JVal.str "U")]).url = JVal.str "U" :=
  ⟨(c5_amended [("public_url", JVal.str "P"), ("url", JVal.str "U")]).1 (by decide),
   (c5_amended [("url", JVal.str "U")]).2 (by decide)⟩

/-- C6: after thing files arrive, the visible file list is exactly the
incoming files whose lower-cased name extension is in the supported set, in
original order with unmodified records; on the spec's example the visible
list is exactly the a.STL and c.obj records. -/
theorem c6 (s : ServiceState) (files : List SFile) :
    ((_onThingFilesFinished s files).1.thing_files).Sublist files ∧
    (∀ f, f ∈ (_onThingFilesFinished s files).1.thing_files ↔
      f ∈ files ∧ fileTypeOf f.name ∈ s.supported_file_types) ∧
    activeThingFiles (_onThingFilesFinished
        { initService true "u" with supported_file_types := ["stl", "obj"] }
        [⟨1, "", "a.STL", ""⟩, ⟨2, "", "b.gcode", ""⟩, ⟨3, "", "c.obj", ""⟩]).1
      = [⟨1, "", "a.STL", ""⟩, ⟨3, "", "c.obj", ""⟩] := by
  refine ⟨List.filter_sublist _, ?_, by decide⟩
  intro f
  simp [_onThingFilesFinished, List.mem_filter, List.elem_iff]

/-- C7 (counterexample): with a thing active and a non-empty filtered file
list, hideThingDetails leaves activeThingFiles non-empty — the file list is
not cleared. -/
theorem c7_counterexample :
    activeThingFiles (hideThingDetails
      { initService true "u" with
        thing_details := some ⟨1, "", "t", "", ""⟩,
        thing_files := [⟨1, "", "a.STL", ""⟩] }).1 ≠ [] := by decide

/-- C7 (amended): after hideThingDetails, activeThing is absent, but the
active thing files are left unchanged rather than emptied; the only effect
is the active-thing change notification, a call with no active thing
changes no state, and the operation is idempotent. -/
theorem c7_amended (s : ServiceState) :
    (hideThingDetails s).1.thing_details = none ∧
    activeThing (hideThingDetails s).1 = none ∧
    (hideThingDetails s).1.thing_files = s.thing_files ∧
    (hideThingDetails s).2 = [Effect.emitActiveThingChanged] ∧
    (s.thing_details = none → (hideThingDetails s).1 = s) ∧
    hideThingDetails (hideThingDetails s).1 =
      ((hideThingDetails s).1, [Effect.emitActiveThingChanged]) := by
  refine ⟨rfl, rfl, rfl, rfl, ?_, rfl⟩
  intro h
  show { s with thing_details := none } = s
  rw [← h]

/-- C7 (witness): on a fresh service with no active thing, hideThingDetails
changes no state. -/
theorem c7_witness :
    (hideThingDetails (initService true "u")).1 = initService true "u" :=
  (c7_amended (initService true "u")).2.2.2.2.1 rfl

/-- C8: downloadThingFile raises isDownloading at once, as its first step
and before the download request is issued, and never lowers it; the
completion handler lowers isDownloading, and any occurrence of that
lowering in its effect trace comes strictly after both delivery steps (the
temporary-file write of the bytes with the file name, and the host
open-local-file call). -/
theorem c8 (s s2 : ServiceState) (fid : Int) (fname : String) (bytes : List Nat) :
    (ThingiverseService.downloadThingFile s fid fname).1.is_downloading = true ∧
    (ThingiverseService.downloadThingFile s fid fname).2.head? =
      some (Effect.setDownloading true) ∧
    (ThingiverseService.downloadThingFile s fid fname).2.get? 2 =
      some (Effect.apiDownload fid fname) ∧
    Effect.setDownloading false ∉ (ThingiverseService.downloadThingFile s fid fname).2 ∧
    (_onDownloadFinished s2 bytes fname).1.is_downloading = false ∧
    (∀ i, (_onDownloadFinished s2 bytes fname).2.get? i =
        some (Effect.setDownloading false) →
      ∃ j k, j < i ∧ k < i ∧
        (_onDownloadFinished s2 bytes fname).2.get? j =
          some (Effect.writeTempFile bytes fname) ∧
        (_onDownloadFinished s2 bytes fname).2.get? k =
          some (Effect.readLocalFile fname)) := by
  refine ⟨rfl, rfl, rfl, ?_, rfl, ?_⟩
  · simp [ThingiverseService.downloadThingFile]
  · intro i hi
    match i with
    | 0 => simp [_onDownloadFinished] at hi
    | 1 => simp [_onDownloadFinished] at hi
    | 2 => exact ⟨0, 1, by omega, by omega, rfl, rfl⟩
    | 3 => simp [_onDownloadFinished] at hi
    | n + 4 => simp [_onDownloadFinished] at hi

/-- C8 (witness): in the completion handler's trace for file 42 and name
part.stl, the downloading flag is lowered at position 2, and both delivery
steps occur strictly before it. -/
theorem c8_witness :
    ∃ j k, j < 2 ∧ k < 2 ∧
      (_onDownloadFinished (initService true "u") [7] "part.stl").2.get? j =
        some (Effect.writeTempFile [7] "part.stl") ∧
      (_onDownloadFinished (initService true "u") [7] "part.stl").2.get? k =
        some (Effect.readLocalFile "part.stl") :=
  (c8 (initService true "u") (initService true "u") 42 "part.stl" [7]).2.2.2.2.2 2 rfl

/-- C9: the getThingFiles request carries the correct URL but registers the
default raw-JSON callback, not the normalizing _parseGetThingFiles parser
defined right below it in the source; that unused parser would deliver
ThingFile records with the public_url-over-url precedence, as the last
conjunct evaluates. -/
theorem c9_code_bug :
    (ThingiverseApiClient.getThingFiles 42).parserTag = ParserTag.rawJson ∧
    (ThingiverseApiClient.getThingFiles 42).parserTag ≠ ParserTag.parseGetThingFiles ∧
    (ThingiverseApiClient.getThingFiles 42).url =
      "https://api.thingiverse.com/things/42/files" ∧
    parseGetThingFiles
        [[("name", JVal.str "f"), ("public_url", JVal.str "P"), ("url", JVal.str "U")]]
      = [{ id := JVal.null, thumbnail := JVal.null, name := JVal.str "f",
           url := JVal.str "P" }] := by
  exact ⟨rfl, by decide, by decide, by decide⟩

/-- C10: on a freshly constructed service the querying attribute does not
exist (the constructor never assigns it), so reading the isQuerying
observable raises AttributeError instead of returning false; the attribute
is first assigned inside the query-execution path. -/
theorem c10_code_bug :
    (initService true "user").is_querying = none ∧
    isQuerying (initService true "user") = Except.error "AttributeError" ∧
    (_executeQuery (initService true "user") (some "popular") false).1.is_querying
      = some true := by
  exact ⟨rfl, rfl, by decide⟩

end Claims

end ThingiBrowser

